import Mathlib

/-!
Verification of the system-monitor library (src/lib.rs).

The library wraps the external OS-facilities collaborator (the sysinfo
crate) behind a `SystemMonitor` facade with four JSON-returning query
operations plus `refresh`, compiled in two variants: a native one backed
by live OS queries and a wasm32 one returning fixed placeholder data.

Embedding choices:
* The collaborator is modelled as a `World`: the values the OS facilities
  would report at call time (identity accessors, memory accounting, CPU
  enumeration, disk-mount enumeration).  The sysinfo `System` object caches
  the refreshable part of that state (`SysCache`); `refresh_all`,
  `refresh_memory` and `refresh_cpu_all` copy the corresponding subsystems
  of the `World` into the cache, exactly as the crate's targeted refresh
  calls do.
* `u64`/`usize` values are `Nat` (no arithmetic here can overflow, and
  `u64::saturating_sub` on in-range values is `Nat` subtraction); `f64`
  and `f32` arithmetic is modelled exactly over `ℚ`.
* `serde_json::to_string` returns a `Result`; it is modelled as a
  `Serializer` of `Option String`-valued encoders, so that behaviour under
  encoder failure can be quantified over.  The concrete encoder
  `serde_json` mirrors the derived serde encoding: one JSON object per
  record, fields in declaration order under the Rust field identifiers
  (shortest-decimal formatting of non-integral floats is abstracted by
  `ratRepr`; no claim inspects a non-integral rendering).
* Rust methods taking `&mut self` become functions returning the updated
  monitor paired with their output; `list_disks` takes `&self` and so
  returns only its output string.
-/

/-- SystemInfo record (src/lib.rs lines 14-24). `cpu_count` is `usize`,
the last three fields are `u64`. -/
structure SystemInfo where
  os : String
  os_version : String
  kernel_version : String
  hostname : String
  cpu_count : Nat
  total_memory : Nat
  used_memory : Nat
  uptime : Nat

/-- MemoryInfo record (src/lib.rs lines 27-33); `usage_percent` is `f64`,
modelled over `ℚ`. -/
structure MemoryInfo where
  total : Nat
  used : Nat
  available : Nat
  usage_percent : ℚ

/-- DiskInfo record (src/lib.rs lines 36-43). -/
structure DiskInfo where
  name : String
  mount_point : String
  total_space : Nat
  available_space : Nat
  usage_percent : ℚ

/-- CpuInfo record (src/lib.rs lines 46-51); `usage` is `f32`, modelled
over `ℚ`. -/
structure CpuInfo where
  name : String
  usage : ℚ
  frequency : Nat

/-- JSON string escaping as performed by serde_json for the characters
that can occur here (backslash, quote, and common control characters;
serde_json's \u-escapes for the remaining control characters are not
modelled, no string in this development contains one). -/
def escapeChar (c : Char) : String :=
  if c = '\\' then "\\\\"
  else if c = '\x22' then "\\\x22"
  else if c = '\n' then "\\n"
  else if c = '\r' then "\\r"
  else if c = '\t' then "\\t"
  else String.singleton c

/-- Escape every character of a string for inclusion in a JSON literal. -/
def escapeString (s : String) : String :=
  String.join (s.data.map escapeChar)

/-- A JSON string literal: quoted and escaped. -/
def jsonStr (s : String) : String :=
  "\x22" ++ escapeString s ++ "\x22"

/-- Rendering of a float value (modelled as `ℚ`): serde_json (via ryu)
prints integral doubles as `n.0`; the shortest-decimal rendering of
non-integral values is abstracted as `num/den` and never inspected. -/
def ratRepr (q : ℚ) : String :=
  if q.den = 1 then toString q.num ++ ".0"
  else toString q.num ++ "/" ++ toString q.den

/-- A JSON object from an ordered list of key/value pairs (values already
rendered). -/
def jsonObj (fields : List (String × String)) : String :=
  "\x7b" ++ String.intercalate "," (fields.map (fun kv => jsonStr kv.1 ++ ":" ++ kv.2)) ++ "\x7d"

/-- A JSON array from already-rendered elements. -/
def jsonArr (elems : List String) : String :=
  "[" ++ String.intercalate "," elems ++ "]"

/-- Serde-derived encoding of `SystemInfo`: fields in declaration order,
keyed by the Rust field identifiers (src/lib.rs lines 14-24). -/
def SystemInfo.jsonFields (i : SystemInfo) : List (String × String) :=
  [("os", jsonStr i.os),
   ("os_version", jsonStr i.os_version),
   ("kernel_version", jsonStr i.kernel_version),
   ("hostname", jsonStr i.hostname),
   ("cpu_count", toString i.cpu_count),
   ("total_memory", toString i.total_memory),
   ("used_memory", toString i.used_memory),
   ("uptime", toString i.uptime)]

/-- JSON text of a `SystemInfo` record. -/
def SystemInfo.toJson (i : SystemInfo) : String :=
  jsonObj i.jsonFields

/-- The keys, in order, of the JSON encoding of a `SystemInfo` record. -/
def SystemInfo.jsonKeys (i : SystemInfo) : List String :=
  i.jsonFields.map Prod.fst

/-- Serde-derived encoding of `MemoryInfo` (src/lib.rs lines 27-33). -/
def MemoryInfo.jsonFields (i : MemoryInfo) : List (String × String) :=
  [("total", toString i.total),
   ("used", toString i.used),
   ("available", toString i.available),
   ("usage_percent", ratRepr i.usage_percent)]

/-- JSON text of a `MemoryInfo` record. -/
def MemoryInfo.toJson (i : MemoryInfo) : String :=
  jsonObj i.jsonFields

/-- The keys, in order, of the JSON encoding of a `MemoryInfo` record. -/
def MemoryInfo.jsonKeys (i : MemoryInfo) : List String :=
  i.jsonFields.map Prod.fst

/-- Serde-derived encoding of `DiskInfo` (src/lib.rs lines 36-43). -/
def DiskInfo.jsonFields (i : DiskInfo) : List (String × String) :=
  [("name", jsonStr i.name),
   ("mount_point", jsonStr i.mount_point),
   ("total_space", toString i.total_space),
   ("available_space", toString i.available_space),
   ("usage_percent", ratRepr i.usage_percent)]

/-- JSON text of a `DiskInfo` record. -/
def DiskInfo.toJson (i : DiskInfo) : String :=
  jsonObj i.jsonFields

/-- The keys, in order, of the JSON encoding of a `DiskInfo` record. -/
def DiskInfo.jsonKeys (i : DiskInfo) : List String :=
  i.jsonFields.map Prod.fst

/-- Serde-derived encoding of `CpuInfo` (src/lib.rs lines 46-51). -/
def CpuInfo.jsonFields (i : CpuInfo) : List (String × String) :=
  [("name", jsonStr i.name),
   ("usage", ratRepr i.usage),
   ("frequency", toString i.frequency)]

/-- JSON text of a `CpuInfo` record. -/
def CpuInfo.toJson (i : CpuInfo) : String :=
  jsonObj i.jsonFields

/-- The keys, in order, of the JSON encoding of a `CpuInfo` record. -/
def CpuInfo.jsonKeys (i : CpuInfo) : List String :=
  i.jsonFields.map Prod.fst

/-- One logical core as reported by the collaborator: the values the
sysinfo accessors `name()`, `cpu_usage()` and `frequency()` return for it. -/
structure Cpu where
  name : String
  cpu_usage : ℚ
  frequency : Nat

/-- One disk mount as reported by the collaborator: the values of
`name()`, `mount_point()`, `total_space()` and `available_space()`
(names already converted to text, as `to_string_lossy` does). -/
structure Disk where
  name : String
  mount_point : String
  total_space : Nat
  available_space : Nat

/-- The collaborator state at call time: what the OS facilities would
report if queried now.  The identity accessors (`System::name` etc.) are
fallible and return `Option`; the rest always produce values. -/
structure World where
  name : Option String
  os_version : Option String
  kernel_version : Option String
  host_name : Option String
  uptime : Nat
  total_memory : Nat
  used_memory : Nat
  available_memory : Nat
  cpus : List Cpu
  disks : List Disk

/-- The refreshable state cached inside the sysinfo `System` object: a
memory subsystem (total/used/available) and a CPU subsystem (the core
list).  Disk mounts are not cached (the `Disks` object is created fresh
inside `list_disks`). -/
structure SysCache where
  total_memory : Nat
  used_memory : Nat
  available_memory : Nat
  cpus : List Cpu

/-- sysinfo `System::refresh_all`: reload every cached subsystem from the
current collaborator state. -/
def SysCache.refresh_all (w : World) (_s : SysCache) : SysCache :=
  { total_memory := w.total_memory
    used_memory := w.used_memory
    available_memory := w.available_memory
    cpus := w.cpus }

/-- sysinfo `System::refresh_memory`: reload only the memory subsystem,
leaving the CPU subsystem as cached. -/
def SysCache.refresh_memory (w : World) (s : SysCache) : SysCache :=
  { s with
    total_memory := w.total_memory
    used_memory := w.used_memory
    available_memory := w.available_memory }

/-- sysinfo `System::refresh_cpu_all`: reload only the CPU subsystem,
leaving the memory subsystem as cached. -/
def SysCache.refresh_cpu_all (w : World) (s : SysCache) : SysCache :=
  { s with cpus := w.cpus }

/-- The fallible record encoders of `serde_json::to_string` at the four
types the library serializes, `none` standing for `Err`. -/
structure Serializer where
  sysInfo : SystemInfo → Option String
  memInfo : MemoryInfo → Option String
  diskList : List DiskInfo → Option String
  cpuList : List CpuInfo → Option String

/-- The actual serde_json encoder: total on these fixed schemas. -/
def serde_json : Serializer :=
  { sysInfo := fun i => some (SystemInfo.toJson i)
    memInfo := fun i => some (MemoryInfo.toJson i)
    diskList := fun l => some (jsonArr (l.map DiskInfo.toJson))
    cpuList := fun l => some (jsonArr (l.map CpuInfo.toJson)) }

/-- A serializer that fails on every record, for exercising the fallback
branch of the query operations. -/
def failingSerializer : Serializer :=
  { sysInfo := fun _ => none
    memInfo := fun _ => none
    diskList := fun _ => none
    cpuList := fun _ => none }

/-- The native (non-wasm32) `SystemMonitor`: owns one sysinfo `System`
(src/lib.rs lines 54-58). -/
structure SystemMonitor where
  sys : SysCache

/-- `SystemMonitor::new` (src/lib.rs lines 64-75, native branch):
`System::new_all()` followed by `refresh_all()` leaves the cache loaded
with the current collaborator state. -/
def SystemMonitor.new (w : World) : SystemMonitor :=
  ⟨SysCache.refresh_all w ⟨0, 0, 0, []⟩⟩

/-- `SystemMonitor::refresh` (src/lib.rs lines 78-83): full refresh of the
cached state. -/
def SystemMonitor.refresh (w : World) (m : SystemMonitor) : SystemMonitor :=
  ⟨SysCache.refresh_all w m.sys⟩

/-- The `SystemInfo` record built by `get_system_info` (src/lib.rs lines
89-100): identity accessors are read fresh from the collaborator with
`unwrap_or_else` substituting "Unknown"; `cpu_count`, `total_memory` and
`used_memory` are read from the just-refreshed cache. -/
def SystemMonitor.systemRecord (w : World) (m : SystemMonitor) : SystemInfo :=
  let sys := SysCache.refresh_all w m.sys
  { os := w.name.getD "Unknown"
    os_version := w.os_version.getD "Unknown"
    kernel_version := w.kernel_version.getD "Unknown"
    hostname := w.host_name.getD "Unknown"
    cpu_count := sys.cpus.length
    total_memory := sys.total_memory
    used_memory := sys.used_memory
    uptime := w.uptime }

/-- `SystemMonitor::get_system_info` (src/lib.rs lines 86-103, native
branch): `refresh_all`, build the record, serialize with fallback. -/
def SystemMonitor.get_system_info (ser : Serializer) (w : World) (m : SystemMonitor) :
    SystemMonitor × String :=
  (⟨SysCache.refresh_all w m.sys⟩,
   (ser.sysInfo (SystemMonitor.systemRecord w m)).getD "\x7b\x7d")

/-- The `MemoryInfo` record built by `get_memory_info` (src/lib.rs lines
114-130) from the cache right after `refresh_memory`. -/
def SystemMonitor.memoryRecord (w : World) (m : SystemMonitor) : MemoryInfo :=
  let sys := SysCache.refresh_memory w m.sys
  let total := sys.total_memory
  let used := sys.used_memory
  let available := sys.available_memory
  let usage_percent : ℚ :=
    if total > 0 then ((used : ℚ) / (total : ℚ)) * 100 else 0
  { total := total, used := used, available := available, usage_percent := usage_percent }

/-- `SystemMonitor::get_memory_info` (src/lib.rs lines 111-133, native
branch): `refresh_memory`, build the record, serialize with fallback. -/
def SystemMonitor.get_memory_info (ser : Serializer) (w : World) (m : SystemMonitor) :
    SystemMonitor × String :=
  (⟨SysCache.refresh_memory w m.sys⟩,
   (ser.memInfo (SystemMonitor.memoryRecord w m)).getD "\x7b\x7d")

/-- The `DiskInfo` record built from one collaborator-reported mount
(src/lib.rs lines 147-164): `used` is `total_space.saturating_sub
(available_space)`, which on in-range `u64` values is `Nat` subtraction. -/
def DiskInfo.ofDisk (d : Disk) : DiskInfo :=
  let total := d.total_space
  let available := d.available_space
  let used := total - available
  let usage_percent : ℚ :=
    if total > 0 then ((used : ℚ) / (total : ℚ)) * 100 else 0
  { name := d.name
    mount_point := d.mount_point
    total_space := total
    available_space := available
    usage_percent := usage_percent }

/-- The disk records `list_disks` builds: one per mount of the freshly
re-enumerated mount list (`Disks::new_with_refreshed_list`), in
collaborator order (src/lib.rs lines 144-165). -/
def SystemMonitor.diskRecords (w : World) : List DiskInfo :=
  w.disks.map DiskInfo.ofDisk

/-- `SystemMonitor::list_disks` (src/lib.rs lines 141-168, native branch):
takes `&self`, so the cached state cannot change; enumerates mounts
fresh from the collaborator and serializes with fallback. -/
def SystemMonitor.list_disks (ser : Serializer) (w : World) (_m : SystemMonitor) : String :=
  (ser.diskList (SystemMonitor.diskRecords w)).getD "[]"

/-- The `CpuInfo` records built by `get_cpu_info` (src/lib.rs lines
181-190) from the cache right after `refresh_cpu_all`: one per logical
core, in collaborator-reported order. -/
def SystemMonitor.cpuRecords (w : World) (m : SystemMonitor) : List CpuInfo :=
  (SysCache.refresh_cpu_all w m.sys).cpus.map
    (fun cpu => { name := cpu.name, usage := cpu.cpu_usage, frequency := cpu.frequency })

/-- `SystemMonitor::get_cpu_info` (src/lib.rs lines 176-193, native
branch): `refresh_cpu_all`, build the records, serialize with fallback. -/
def SystemMonitor.get_cpu_info (ser : Serializer) (w : World) (m : SystemMonitor) :
    SystemMonitor × String :=
  (⟨SysCache.refresh_cpu_all w m.sys⟩,
   (ser.cpuList (SystemMonitor.cpuRecords w m)).getD "[]")

namespace Wasm32

/-- The wasm32 `SystemMonitor` variant: no fields (src/lib.rs lines
54-58, 71-74). -/
structure SystemMonitor where

/-- Wasm32 `SystemMonitor::new` (src/lib.rs line 73). -/
def SystemMonitor.new : SystemMonitor := ⟨⟩

/-- Wasm32 `SystemMonitor::refresh` (src/lib.rs lines 78-83): the body is
empty on wasm32. -/
def SystemMonitor.refresh (m : SystemMonitor) : SystemMonitor := m

/-- Wasm32 `SystemMonitor::get_system_info` (src/lib.rs line 106): a
fixed literal. -/
def SystemMonitor.get_system_info (_m : SystemMonitor) : String :=
  "\x7b\x22os\x22:\x22WASM\x22,\x22os_version\x22:\x22N/A\x22,\x22kernel_version\x22:\x22N/A\x22,\x22hostname\x22:\x22browser\x22,\x22cpu_count\x22:0,\x22total_memory\x22:0,\x22used_memory\x22:0,\x22uptime\x22:0\x7d"

/-- Wasm32 `SystemMonitor::get_memory_info` (src/lib.rs line 136): a
fixed literal. -/
def SystemMonitor.get_memory_info (_m : SystemMonitor) : String :=
  "\x7b\x22total\x22:0,\x22used\x22:0,\x22available\x22:0,\x22usage_percent\x22:0.0\x7d"

/-- Wasm32 `SystemMonitor::list_disks` (src/lib.rs line 171). -/
def SystemMonitor.list_disks (_m : SystemMonitor) : String := "[]"

/-- Wasm32 `SystemMonitor::get_cpu_info` (src/lib.rs line 196). -/
def SystemMonitor.get_cpu_info (_m : SystemMonitor) : String := "[]"

end Wasm32

/-- A concrete collaborator state for witnesses: identity accessors all
unavailable, one core, and one mount whose reported available space
exceeds its total space. -/
def w0 : World :=
  { name := none
    os_version := none
    kernel_version := none
    host_name := none
    uptime := 5
    total_memory := 100
    used_memory := 40
    available_memory := 60
    cpus := [⟨"cpu0", 12, 2400⟩]
    disks := [⟨"sda", "/", 10, 50⟩] }

/-- A second collaborator state: same mount list as `w0`, every other
subsystem different. -/
def w1 : World :=
  { name := some "Linux"
    os_version := some "6.1"
    kernel_version := some "6.1.0"
    host_name := some "box"
    uptime := 9
    total_memory := 7
    used_memory := 3
    available_memory := 4
    cpus := []
    disks := [⟨"sda", "/", 10, 50⟩] }

/-- Projection of `memoryRecord`: `total` is the collaborator's current
total memory. -/
theorem memoryRecord_total (w : World) (m : SystemMonitor) :
    (SystemMonitor.memoryRecord w m).total = w.total_memory := rfl

/-- Projection of `memoryRecord`: `used` is the collaborator's current
used memory. -/
theorem memoryRecord_used (w : World) (m : SystemMonitor) :
    (SystemMonitor.memoryRecord w m).used = w.used_memory := rfl

/-- Projection of `memoryRecord`: the usage-percent expression. -/
theorem memoryRecord_pct (w : World) (m : SystemMonitor) :
    (SystemMonitor.memoryRecord w m).usage_percent =
      if w.total_memory > 0 then ((w.used_memory : ℚ) / (w.total_memory : ℚ)) * 100 else 0 := rfl

/-- Projection of `DiskInfo.ofDisk`: total space is passed through. -/
theorem ofDisk_total_space (d : Disk) :
    (DiskInfo.ofDisk d).total_space = d.total_space := rfl

/-- Projection of `DiskInfo.ofDisk`: available space is passed through. -/
theorem ofDisk_available_space (d : Disk) :
    (DiskInfo.ofDisk d).available_space = d.available_space := rfl

/-- Projection of `DiskInfo.ofDisk`: the usage-percent expression over
the saturating difference. -/
theorem ofDisk_usage_percent (d : Disk) :
    (DiskInfo.ofDisk d).usage_percent =
      if d.total_space > 0 then
        (((d.total_space - d.available_space : ℕ) : ℚ) / (d.total_space : ℚ)) * 100
      else 0 := rfl

/-- The usage-percent expression of the library is nonnegative for any
unsigned inputs. -/
theorem usage_percent_expr_nonneg (used total : ℕ) :
    (0 : ℚ) ≤ if total > 0 then ((used : ℚ) / (total : ℚ)) * 100 else 0 := by
  split
  · exact mul_nonneg (div_nonneg (Nat.cast_nonneg used) (Nat.cast_nonneg total)) (by norm_num)
  · exact le_refl 0

/-- The usage-percent expression of the library is at most 100 whenever
`used ≤ total`. -/
theorem usage_percent_expr_le_100 (used total : ℕ) (h : used ≤ total) :
    (if total > 0 then ((used : ℚ) / (total : ℚ)) * 100 else 0) ≤ 100 := by
  split
  · rename_i ht
    have htq : (0 : ℚ) < (total : ℚ) := by exact_mod_cast ht
    have h1 : (used : ℚ) / (total : ℚ) ≤ 1 := by
      rw [div_le_one htq]
      exact_mod_cast h
    linarith
  · norm_num

/-- C1: every public operation of `SystemMonitor` is total (in this
embedding each operation is a total Lean function of the collaborator
state, so no caller-visible error exists by construction), and whenever
the serializer fails on the record(s) an operation produced, the returned
string is exactly the two-character empty object for the single-record
operations `get_system_info` and `get_memory_info` and exactly "[]" for
the sequence operations `list_disks` and `get_cpu_info`. -/
theorem queries_fallback_to_empty_encoding (ser : Serializer) (w : World) (m : SystemMonitor)
    (h1 : ser.sysInfo (SystemMonitor.systemRecord w m) = none)
    (h2 : ser.memInfo (SystemMonitor.memoryRecord w m) = none)
    (h3 : ser.diskList (SystemMonitor.diskRecords w) = none)
    (h4 : ser.cpuList (SystemMonitor.cpuRecords w m) = none) :
    (SystemMonitor.get_system_info ser w m).2 = "\x7b\x7d" ∧
    (SystemMonitor.get_memory_info ser w m).2 = "\x7b\x7d" ∧
    SystemMonitor.list_disks ser w m = "[]" ∧
    (SystemMonitor.get_cpu_info ser w m).2 = "[]" := by
  refine ⟨?_, ?_, ?_, ?_⟩
  · show (ser.sysInfo (SystemMonitor.systemRecord w m)).getD "\x7b\x7d" = "\x7b\x7d"
    rw [h1]
    rfl
  · show (ser.memInfo (SystemMonitor.memoryRecord w m)).getD "\x7b\x7d" = "\x7b\x7d"
    rw [h2]
    rfl
  · show (ser.diskList (SystemMonitor.diskRecords w)).getD "[]" = "[]"
    rw [h3]
    rfl
  · show (ser.cpuList (SystemMonitor.cpuRecords w m)).getD "[]" = "[]"
    rw [h4]
    rfl

/-- Witness for C1: the fallback encodings at a concrete collaborator
state and the always-failing serializer. -/
theorem queries_fallback_to_empty_encoding_witness :
    (SystemMonitor.get_system_info failingSerializer w0 (SystemMonitor.new w0)).2 = "\x7b\x7d" ∧
    (SystemMonitor.get_memory_info failingSerializer w0 (SystemMonitor.new w0)).2 = "\x7b\x7d" ∧
    SystemMonitor.list_disks failingSerializer w0 (SystemMonitor.new w0) = "[]" ∧
    (SystemMonitor.get_cpu_info failingSerializer w0 (SystemMonitor.new w0)).2 = "[]" :=
  queries_fallback_to_empty_encoding failingSerializer w0 (SystemMonitor.new w0)
    rfl rfl rfl rfl

/-- C2: for every collaborator state, the `MemoryInfo` record produced by
`get_memory_info` has `usage_percent = (used / total) * 100` when
`total > 0` and `usage_percent = 0` when `total = 0`, and under the
precondition `used ≤ total` it satisfies
`0 ≤ usage_percent ≤ 100` (the `f64` arithmetic is modelled exactly over
`ℚ`). -/
theorem memory_usage_percent_formula_and_bounds (w : World) (m : SystemMonitor) :
    ((SystemMonitor.memoryRecord w m).total > 0 →
      (SystemMonitor.memoryRecord w m).usage_percent =
        (((SystemMonitor.memoryRecord w m).used : ℚ) /
          ((SystemMonitor.memoryRecord w m).total : ℚ)) * 100) ∧
    ((SystemMonitor.memoryRecord w m).total = 0 →
      (SystemMonitor.memoryRecord w m).usage_percent = 0) ∧
    ((SystemMonitor.memoryRecord w m).used ≤ (SystemMonitor.memoryRecord w m).total →
      0 ≤ (SystemMonitor.memoryRecord w m).usage_percent ∧
      (SystemMonitor.memoryRecord w m).usage_percent ≤ 100) := by
  rw [memoryRecord_total, memoryRecord_used, memoryRecord_pct]
  refine ⟨fun h => ?_, fun h => ?_, fun h => ?_⟩
  · rw [if_pos h]
  · simp [h]
  · exact ⟨usage_percent_expr_nonneg _ _, usage_percent_expr_le_100 _ _ h⟩

/-- Witness for C2: bounds at a concrete collaborator state with
`used = 40 ≤ 100 = total`. -/
theorem memory_usage_percent_formula_and_bounds_witness :
    0 ≤ (SystemMonitor.memoryRecord w0 (SystemMonitor.new w0)).usage_percent ∧
    (SystemMonitor.memoryRecord w0 (SystemMonitor.new w0)).usage_percent ≤ 100 :=
  (memory_usage_percent_formula_and_bounds w0 (SystemMonitor.new w0)).2.2 (by decide)

/-- C3: every disk record built by `list_disks` computes its used space
by saturating subtraction (`available_space > total_space` yields used
space 0, hence usage percent 0), derives `usage_percent` as
`used / total_space * 100` when `total_space > 0` and 0 when
`total_space = 0`, and consequently satisfies
`0 ≤ usage_percent ≤ 100` with no precondition relating the two reported
sizes. -/
theorem disk_usage_percent_saturating_and_bounded (w : World) (di : DiskInfo)
    (hdi : di ∈ SystemMonitor.diskRecords w) :
    (di.total_space > 0 →
      di.usage_percent =
        (((di.total_space - di.available_space : ℕ) : ℚ) / (di.total_space : ℚ)) * 100) ∧
    (di.total_space = 0 → di.usage_percent = 0) ∧
    (di.total_space < di.available_space → di.usage_percent = 0) ∧
    (0 ≤ di.usage_percent ∧ di.usage_percent ≤ 100) := by
  simp only [SystemMonitor.diskRecords, List.mem_map] at hdi
  obtain ⟨d, _hd, rfl⟩ := hdi
  rw [ofDisk_total_space, ofDisk_available_space, ofDisk_usage_percent]
  refine ⟨fun h => ?_, fun h => ?_, fun h => ?_, ?_, ?_⟩
  · rw [if_pos h]
  · simp [h]
  · have h0 : d.total_space - d.available_space = 0 := Nat.sub_eq_zero_of_le h.le
    rw [h0]
    simp
  · exact usage_percent_expr_nonneg _ _
  · exact usage_percent_expr_le_100 _ _ (Nat.sub_le _ _)

/-- Witness for C3: the bounds at a concrete mount whose reported
available space (50) exceeds its total space (10). -/
theorem disk_usage_percent_saturating_and_bounded_witness :
    0 ≤ (DiskInfo.ofDisk (Disk.mk "sda" "/" 10 50)).usage_percent ∧
    (DiskInfo.ofDisk (Disk.mk "sda" "/" 10 50)).usage_percent ≤ 100 :=
  (disk_usage_percent_saturating_and_bounded w0 (DiskInfo.ofDisk (Disk.mk "sda" "/" 10 50))
    (List.mem_singleton.mpr rfl)).2.2.2

/-- C4: in the wasm32 variant, for every monitor state, `get_cpu_info`
and `list_disks` return the empty-sequence encoding "[]",
`get_memory_info` returns the encoding of a record whose `total`, `used`
and `available` are 0 with `usage_percent` 0.0, and `get_system_info`
returns the encoding of a fixed record whose os name is the sentinel
"WASM" marking the restricted environment, with `cpu_count` 0 and all
byte/uptime counts 0; the results are pure functions of no input and
`refresh` has no effect. -/
theorem wasm32_queries_fixed_zero_results (m : Wasm32.SystemMonitor) :
    Wasm32.SystemMonitor.get_cpu_info m = jsonArr [] ∧
    Wasm32.SystemMonitor.list_disks m = jsonArr [] ∧
    Wasm32.SystemMonitor.get_memory_info m = MemoryInfo.toJson ⟨0, 0, 0, 0⟩ ∧
    Wasm32.SystemMonitor.get_system_info m =
      SystemInfo.toJson ⟨"WASM", "N/A", "N/A", "browser", 0, 0, 0, 0⟩ ∧
    Wasm32.SystemMonitor.refresh m = m :=
  ⟨rfl, rfl, rfl, rfl, rfl⟩

/-- C5: in the live variant each query refreshes the cached subsystems it
reads before reading them: `get_memory_info` reloads the memory subsystem
from the collaborator while leaving the cached CPU list unchanged,
`get_cpu_info` reloads the CPU subsystem while leaving the cached memory
values unchanged, and `get_system_info`, which reads both the CPU count
and the memory counters, reloads the cached state as a whole
(`refresh_all`). -/
theorem queries_refresh_targeted_subsystems (ser : Serializer) (w : World) (m : SystemMonitor) :
    ((SystemMonitor.get_memory_info ser w m).1.sys.cpus = m.sys.cpus ∧
     (SystemMonitor.get_memory_info ser w m).1.sys.total_memory = w.total_memory ∧
     (SystemMonitor.get_memory_info ser w m).1.sys.used_memory = w.used_memory ∧
     (SystemMonitor.get_memory_info ser w m).1.sys.available_memory = w.available_memory) ∧
    ((SystemMonitor.get_cpu_info ser w m).1.sys.total_memory = m.sys.total_memory ∧
     (SystemMonitor.get_cpu_info ser w m).1.sys.used_memory = m.sys.used_memory ∧
     (SystemMonitor.get_cpu_info ser w m).1.sys.available_memory = m.sys.available_memory ∧
     (SystemMonitor.get_cpu_info ser w m).1.sys.cpus = w.cpus) ∧
    (SystemMonitor.get_system_info ser w m).1.sys = SysCache.refresh_all w m.sys :=
  ⟨⟨rfl, rfl, rfl, rfl⟩, ⟨rfl, rfl, rfl, rfl⟩, rfl⟩

/-- C6: in the live variant, whenever an identity accessor of the
collaborator returns no value, `get_system_info` substitutes the fixed
sentinel "Unknown" for exactly that field (fields whose accessor does
produce a value are passed through unchanged), the encoding still carries
all eight field names, and with the real serde_json encoder the returned
string is the complete record's encoding — never an error or an
absent/null field. -/
theorem system_info_unknown_sentinel_substitution (w : World) (m : SystemMonitor) :
    (w.name = none → (SystemMonitor.systemRecord w m).os = "Unknown") ∧
    (∀ s, w.name = some s → (SystemMonitor.systemRecord w m).os = s) ∧
    (w.os_version = none → (SystemMonitor.systemRecord w m).os_version = "Unknown") ∧
    (∀ s, w.os_version = some s → (SystemMonitor.systemRecord w m).os_version = s) ∧
    (w.kernel_version = none → (SystemMonitor.systemRecord w m).kernel_version = "Unknown") ∧
    (∀ s, w.kernel_version = some s → (SystemMonitor.systemRecord w m).kernel_version = s) ∧
    (w.host_name = none → (SystemMonitor.systemRecord w m).hostname = "Unknown") ∧
    (∀ s, w.host_name = some s → (SystemMonitor.systemRecord w m).hostname = s) ∧
    SystemInfo.jsonKeys (SystemMonitor.systemRecord w m) =
      ["os", "os_version", "kernel_version", "hostname",
       "cpu_count", "total_memory", "used_memory", "uptime"] ∧
    (SystemMonitor.get_system_info serde_json w m).2 =
      SystemInfo.toJson (SystemMonitor.systemRecord w m) := by
  refine ⟨fun h => ?_, fun s h => ?_, fun h => ?_, fun s h => ?_, fun h => ?_, fun s h => ?_,
    fun h => ?_, fun s h => ?_, rfl, rfl⟩ <;>
    simp [SystemMonitor.systemRecord, h]

/-- Witness for C6: sentinel substitution at a collaborator state where
every identity accessor fails, and pass-through at one where the hostname
is available. -/
theorem system_info_unknown_sentinel_substitution_witness :
    (SystemMonitor.systemRecord w0 (SystemMonitor.new w0)).os = "Unknown" ∧
    (SystemMonitor.systemRecord w0 (SystemMonitor.new w0)).os_version = "Unknown" ∧
    (SystemMonitor.systemRecord w0 (SystemMonitor.new w0)).kernel_version = "Unknown" ∧
    (SystemMonitor.systemRecord w0 (SystemMonitor.new w0)).hostname = "Unknown" ∧
    (SystemMonitor.systemRecord w1 (SystemMonitor.new w1)).hostname = "box" :=
  ⟨(system_info_unknown_sentinel_substitution w0 (SystemMonitor.new w0)).1 rfl,
   (system_info_unknown_sentinel_substitution w0 (SystemMonitor.new w0)).2.2.1 rfl,
   (system_info_unknown_sentinel_substitution w0 (SystemMonitor.new w0)).2.2.2.2.1 rfl,
   (system_info_unknown_sentinel_substitution w0 (SystemMonitor.new w0)).2.2.2.2.2.2.1 rfl,
   (system_info_unknown_sentinel_substitution w1 (SystemMonitor.new w1)).2.2.2.2.2.2.2.1
     "box" rfl⟩

/-- C7 counterexample: the claim that encoded field names equal the §3
semantic names written in lower case with underscores fails at concrete
records: the CoreUsage (CpuInfo) usage-percent field is encoded under the
key "usage", not "usage_percent", and the SystemInfo encoding carries
"cpu_count", "total_memory" and "uptime" rather than
"logical_core_count", "total_memory_bytes" and "uptime_seconds". -/
theorem field_names_differ_from_spec_table_counterexample :
    "usage_percent" ∉ CpuInfo.jsonKeys (CpuInfo.mk "cpu0" 0 0) ∧
    CpuInfo.jsonKeys (CpuInfo.mk "cpu0" 0 0) = ["name", "usage", "frequency"] ∧
    "logical_core_count" ∉ SystemInfo.jsonKeys
      (SystemInfo.mk "Linux" "1" "1" "h" 4 8 2 9) ∧
    "total_memory_bytes" ∉ SystemInfo.jsonKeys
      (SystemInfo.mk "Linux" "1" "1" "h" 4 8 2 9) ∧
    "uptime_seconds" ∉ SystemInfo.jsonKeys
      (SystemInfo.mk "Linux" "1" "1" "h" 4 8 2 9) := by
  decide

/-- C7 amended: for every record emitted by the four query operations,
the field names in the text encoding are exactly the record types' field
identifiers in declaration order — os, os_version, kernel_version,
hostname, cpu_count, total_memory, used_memory, uptime; total, used,
available, usage_percent; name, mount_point, total_space,
available_space, usage_percent; and name, usage, frequency — all lower
case with underscores, but not literally the underscore-joined §3
phrases: the CoreUsage usage-percent field is keyed "usage". -/
theorem json_field_names_are_code_identifiers (i : SystemInfo) (mi : MemoryInfo)
    (di : DiskInfo) (ci : CpuInfo) :
    SystemInfo.jsonKeys i = ["os", "os_version", "kernel_version", "hostname",
      "cpu_count", "total_memory", "used_memory", "uptime"] ∧
    MemoryInfo.jsonKeys mi = ["total", "used", "available", "usage_percent"] ∧
    DiskInfo.jsonKeys di = ["name", "mount_point", "total_space", "available_space",
      "usage_percent"] ∧
    CpuInfo.jsonKeys ci = ["name", "usage", "frequency"] :=
  ⟨rfl, rfl, rfl, rfl⟩

/-- C8: `list_disks` takes only shared access (in the embedding it
returns no monitor state, mirroring `&self`, so the cached state cannot
change), and its output is built from the freshly re-enumerated mount
list at call time: it is identical across any two cached monitor states
and any two collaborator states that agree on the current mount list. -/
theorem list_disks_independent_of_cached_state (ser : Serializer) (w w' : World)
    (m m' : SystemMonitor) (h : w.disks = w'.disks) :
    SystemMonitor.list_disks ser w m = SystemMonitor.list_disks ser w' m' := by
  simp only [SystemMonitor.list_disks, SystemMonitor.diskRecords, h]

/-- Witness for C8: two monitors with entirely different cached states,
over two collaborator states agreeing only on the mount list, produce the
same output. -/
theorem list_disks_independent_of_cached_state_witness :
    SystemMonitor.list_disks serde_json w0 (SystemMonitor.new w0) =
      SystemMonitor.list_disks serde_json w1 (SystemMonitor.new w1) :=
  list_disks_independent_of_cached_state serde_json w0 w1 (SystemMonitor.new w0)
    (SystemMonitor.new w1) rfl

/-- C9: after `refresh()`, two consecutive `get_memory_info()` calls
against an unchanged collaborator state produce value-equal `MemoryInfo`
records (the second call starts from the state the first call returned). -/
theorem refresh_then_consecutive_memory_reads_value_equal (ser : Serializer) (w : World)
    (m : SystemMonitor) :
    SystemMonitor.memoryRecord w
        ((SystemMonitor.get_memory_info ser w (SystemMonitor.refresh w m)).1) =
      SystemMonitor.memoryRecord w (SystemMonitor.refresh w m) := rfl

/-- C10: against an unchanged collaborator state, the `cpu_count` field
of the record `get_system_info` returns equals the number of entries in
the CPU list `get_cpu_info` returns (also when the second call starts
from the state the first call left behind), and the CPU records are one
per logical core in collaborator-reported order. -/
theorem cpu_count_equals_cpu_info_length (ser : Serializer) (w : World) (m : SystemMonitor) :
    (SystemMonitor.systemRecord w m).cpu_count =
      (SystemMonitor.cpuRecords w ((SystemMonitor.get_system_info ser w m).1)).length ∧
    (SystemMonitor.cpuRecords w m).length = w.cpus.length ∧
    (SystemMonitor.cpuRecords w m).map CpuInfo.name = w.cpus.map Cpu.name := by
  refine ⟨?_, ?_, ?_⟩ <;>
    simp [SystemMonitor.systemRecord, SystemMonitor.cpuRecords, SystemMonitor.get_system_info,
      SysCache.refresh_all, SysCache.refresh_cpu_all]
